import Mathlib

/-!
Verification development for the ac-core signal-insertion library.

The Python sources (ac_core/models.py, ac_core/database_manager.py,
ac_core/signal_inserter.py) are shallowly embedded below.  Pure data
manipulation (validation, DataFrame conversion, chunking, result
aggregation) is translated into executable Lean functions; the external
PostgreSQL database and its driver are modelled by explicit outcome
oracles (one outcome per driver call), so every orchestration function is
a total Lean function of its inputs and of the oracle.
-/

set_option autoImplicit false

/-- Model of a Python float: a finite rational value, or one of the
non-finite IEEE values.  Only classification and equality are used by the
library code, never floating-point arithmetic. -/
inductive PyFloat where
  | finite (q : ℚ)
  | nan
  | inf
  | ninf
deriving DecidableEq

/-- Model of a JSON value (the shape of parsed `metadata`).  Arrays and
objects are given by their own cons spines so that equality can be derived
structurally. -/
inductive Json where
  | null
  | jbool (b : Bool)
  | num (q : ℚ)
  | jstr (s : String)
  | arrNil
  | arrCons (head tail : Json)
  | objNil
  | objCons (key : String) (val : Json) (tail : Json)
deriving DecidableEq

/-- Python truthiness of a parsed JSON value (empty containers, zero,
empty string, null and false are falsy). -/
def jsonTruthy : Json → Bool
  | .null => false
  | .jbool b => b
  | .num q => q != 0
  | .jstr s => s != ""
  | .arrNil => false
  | .arrCons _ _ => true
  | .objNil => false
  | .objCons _ _ _ => true

/-- A single-quote character, built numerically so the source never
contains a bare quote. -/
def sqt : String := (Char.ofNat 39).toString

/-- Left brace as a string. -/
def lbr : String := (Char.ofNat 123).toString

/-- Right brace as a string. -/
def rbr : String := (Char.ofNat 125).toString

/-- A rendering of a JSON value as text, standing in for `json.dumps`.
The exact characters are not load-bearing anywhere in the library code:
whenever a dumped string is later parsed again, the model consults the
parse-outcome component carried alongside the text (see `PyVal.str`). -/
def jsonDumpsText : Json → String
  | .null => "null"
  | .jbool b => cond b "true" "false"
  | .num q => toString q
  | .jstr s => "\"" ++ s ++ "\""
  | .arrNil => "[]"
  | .arrCons h t => "[" ++ jsonDumpsText h ++ "; " ++ jsonDumpsText t ++ "]"
  | .objNil => lbr ++ rbr
  | .objCons k v t => lbr ++ "\"" ++ k ++ "\": " ++ jsonDumpsText v ++ "; " ++ jsonDumpsText t ++ rbr

/-- Model of the Python runtime values that flow through this library.
A string value carries both its text and the outcome `json.loads` would
produce on it (`some j` for text that is valid JSON denoting `j`, `none`
for malformed text); this pairs each string with its parse once instead of
embedding a JSON parser.  `date` and `datetime` are identified by ordinal
numbers; `datetime` is an instance of `date`, as in Python. -/
inductive PyVal where
  | none
  | pybool (b : Bool)
  | int (i : Int)
  | float (f : PyFloat)
  | str (s : String) (parse : Option Json)
  | date (ord : Nat)
  | datetime (ord : Nat) (tick : Nat)
  | dict (m : Json)
deriving DecidableEq

/-- Python truthiness of a runtime value. -/
def pyTruthy : PyVal → Bool
  | .none => false
  | .pybool b => b
  | .int i => i != 0
  | .float (.finite q) => q != 0
  | .float _ => true
  | .str s _ => s != ""
  | .date _ => true
  | .datetime _ _ => true
  | .dict m => jsonTruthy m

/-- isinstance(x, str). -/
def isPyStr : PyVal → Bool
  | .str _ _ => true
  | _ => false

/-- isinstance(x, bool). -/
def isPyBool : PyVal → Bool
  | .pybool _ => true
  | _ => false

/-- isinstance(x, int) for a non-bool int. -/
def isPyInt : PyVal → Bool
  | .int _ => true
  | _ => false

/-- isinstance(x, float), including the non-finite floats. -/
def isPyFloatV : PyVal → Bool
  | .float _ => true
  | _ => false

/-- isinstance(x, (int, float)): in Python, bool is a subclass of int, so
booleans also satisfy this check. -/
def isPyNumber (v : PyVal) : Bool := isPyBool v || isPyInt v || isPyFloatV v

/-- isinstance(x, datetime.date): in Python, datetime is a subclass of
date, so both constructors qualify. -/
def isDateInstance : PyVal → Bool
  | .date _ => true
  | .datetime _ _ => true
  | _ => false

/-- A finite numeric value in the sense of the specification (section 3:
the `value` field must be a finite number).  NaN and the infinities are
numbers but not finite. -/
def isFiniteNumber : PyVal → Bool
  | .int _ => true
  | .pybool _ => true
  | .float (.finite _) => true
  | _ => false

/-- pd.isna on a scalar cell: Python None and float NaN are missing. -/
def pdIsNA : PyVal → Bool
  | .none => true
  | .float .nan => true
  | _ => false

/-- A DataFrame row: an association list from column names to cell
values. -/
abbrev Row := List (String × PyVal)

/-- Cell access `row[c]` / `row.get(c)`; a column absent from the row
reads as missing, which is how pandas surfaces it. -/
def rowGet (r : Row) (c : String) : PyVal := (List.lookup c r).getD PyVal.none

/-- Model of a pandas DataFrame: the ordered column list plus the rows. -/
structure DataFrame where
  columns : List String
  rows : List Row
deriving DecidableEq

/-- pandas column dtypes, to the granularity the library inspects. -/
inductive Dtype where
  | int64
  | float64
  | boolDt
  | datetime64
  | object
deriving DecidableEq

/-- A non-bool numeric cell (int or float, including NaN and inf, which
are floats). -/
def isNumericCell (v : PyVal) : Bool := isPyInt v || isPyFloatV v

/-- A numeric cell or Python None (None coerces to NaN in a numeric
column). -/
def isNumericOrNone (v : PyVal) : Bool := isNumericCell v || v == PyVal.none

/-- A datetime cell. -/
def isDatetimeCell : PyVal → Bool
  | .datetime _ _ => true
  | _ => false

/-- A datetime cell or Python None (None coerces to NaT). -/
def isDatetimeOrNone (v : PyVal) : Bool := isDatetimeCell v || v == PyVal.none

/-- pandas dtype inference for a column built from Python objects: all
bools give bool, all ints give int64, numerics possibly mixed with None
give float64, datetimes possibly mixed with None give datetime64, and
everything else (dates, strings, dicts, mixtures, all-None) is object. -/
def colDtype (cells : List PyVal) : Dtype :=
  if cells.all isPyBool then .boolDt
  else if cells.all isPyInt then .int64
  else if cells.all isNumericOrNone && cells.any isNumericCell then .float64
  else if cells.all isDatetimeOrNone && cells.any isDatetimeCell then .datetime64
  else .object

/-- pd.api.types.is_numeric_dtype. -/
def isNumericDtype (d : Dtype) : Bool := d == .int64 || d == .float64 || d == .boolDt

/-- pd.api.types.is_datetime64_any_dtype. -/
def isDatetime64Dtype (d : Dtype) : Bool := d == .datetime64

/-- The cells of one column, in row order (df[col]). -/
def colCells (df : DataFrame) (c : String) : List PyVal :=
  df.rows.map (fun r => rowGet r c)

/-- Python repr of a list of strings, as interpolated into the error
messages: bracketed, comma separated, each element single-quoted. -/
def pyListRepr (xs : List String) : String :=
  "[" ++ String.intercalate ", " (xs.map (fun s => sqt ++ s ++ sqt)) ++ "]"

/-- The SignalRaw dataclass (models.py).  After a successful
`__post_init__`, `created_at` is always set, so it is stored plain. -/
structure SignalRaw where
  asof_date : PyVal
  ticker : PyVal
  signal_name : PyVal
  value : PyVal
  metadata : Option Json
  created_at : PyVal
deriving DecidableEq

/-- SignalRaw construction including `__post_init__` (models.py lines
46-59): default `created_at` to the current time, then validate ticker,
signal_name, value and asof_date in that order, raising ValueError (the
error branch) on the first failure. -/
def SignalRaw.make (asof_date ticker signal_name value : PyVal) (metadata : Option Json)
    (created_at : Option PyVal) (now : PyVal) : Except String SignalRaw :=
  let ca := match created_at with
    | Option.none => now
    | Option.some c => c
  if !pyTruthy ticker || !isPyStr ticker then
    .error "ticker must be a non-empty string"
  else if !pyTruthy signal_name || !isPyStr signal_name then
    .error "signal_name must be a non-empty string"
  else if !isPyNumber value then
    .error "value must be a number"
  else if !isDateInstance asof_date then
    .error "asof_date must be a date object"
  else
    .ok ⟨asof_date, ticker, signal_name, value, metadata, ca⟩

/-- The four required DataFrame columns. -/
def requiredColumns : List String := ["asof_date", "ticker", "signal_name", "value"]

/-- The canonical output column set of signals_raw_to_dataframe. -/
def sigColumns : List String :=
  ["asof_date", "ticker", "signal_name", "value", "metadata", "created_at"]

/-- The metadata cell written back by signals_raw_to_dataframe:
`json.dumps(signal.metadata) if signal.metadata else None`, so a falsy
metadata (absent, or an empty map) becomes None, and a truthy one becomes
the dumped JSON string, whose parse is the original value. -/
def metadataCell : Option Json → PyVal
  | Option.some j => if jsonTruthy j then PyVal.str (jsonDumpsText j) (Option.some j) else PyVal.none
  | Option.none => PyVal.none

/-- One output row of signals_raw_to_dataframe (models.py lines 88-97). -/
def DataFrameConverter.signalToRow (s : SignalRaw) : Row :=
  [("asof_date", s.asof_date), ("ticker", s.ticker), ("signal_name", s.signal_name),
   ("value", s.value), ("metadata", metadataCell s.metadata), ("created_at", s.created_at)]

/-- DataFrameConverter.signals_raw_to_dataframe (models.py lines 70-98):
an empty input yields an empty frame that still carries the canonical
column set. -/
def DataFrameConverter.signals_raw_to_dataframe (signals : List SignalRaw) : DataFrame :=
  if signals.isEmpty then ⟨sigColumns, []⟩
  else ⟨sigColumns, signals.map DataFrameConverter.signalToRow⟩

/-- The metadata parsed for one row (models.py lines 130-139): on a
present, non-missing metadata cell, a string is json.loads-ed with parse
failures caught to None, a dict is taken as is, and any other type falls
through to None. -/
def DataFrameConverter.rowMetadata (cols : List String) (r : Row) : Option Json :=
  if cols.contains "metadata" && !pdIsNA (rowGet r "metadata") then
    match rowGet r "metadata" with
    | .str _ p => p
    | .dict m => Option.some m
    | _ => Option.none
  else Option.none

/-- The created_at parsed for one row (models.py lines 141-144): a
missing or NA cell becomes None (later defaulted at construction). -/
def DataFrameConverter.rowCreatedAt (r : Row) : Option PyVal :=
  let c := rowGet r "created_at"
  if pdIsNA c then Option.none else Option.some c

/-- Conversion of one row into a SignalRaw (models.py lines 146-153);
construction-time validation errors propagate. -/
def DataFrameConverter.rowToSignal (cols : List String) (now : PyVal) (r : Row) :
    Except String SignalRaw :=
  SignalRaw.make (rowGet r "asof_date") (rowGet r "ticker") (rowGet r "signal_name")
    (rowGet r "value") (DataFrameConverter.rowMetadata cols r)
    (DataFrameConverter.rowCreatedAt r) now

/-- Row-by-row conversion; the first raising row aborts the whole
conversion, as the Python loop does. -/
def DataFrameConverter.rowsToSignals (cols : List String) (now : PyVal) :
    List Row → Except String (List SignalRaw)
  | [] => .ok []
  | r :: rs =>
    match DataFrameConverter.rowToSignal cols now r with
    | .error e => .error e
    | .ok s =>
      match DataFrameConverter.rowsToSignals cols now rs with
      | .error e => .error e
      | .ok ss => .ok (s :: ss)

/-- DataFrameConverter.dataframe_to_signals_raw (models.py lines
100-154): reject a frame missing required columns with a message naming
them, then convert row by row. -/
def DataFrameConverter.dataframe_to_signals_raw (df : DataFrame) (now : PyVal) :
    Except String (List SignalRaw) :=
  let missing := requiredColumns.filter (fun c => !(df.columns.contains c))
  if !missing.isEmpty then
    .error ("DataFrame missing required columns: " ++ pyListRepr missing)
  else
    DataFrameConverter.rowsToSignals df.columns now df.rows

/-- The key triple used by the duplicate check. -/
def rowKey (r : Row) : PyVal × PyVal × PyVal :=
  (rowGet r "asof_date", rowGet r "ticker", rowGet r "signal_name")

/-- Count of rows marked by df.duplicated(subset=[asof_date, ticker,
signal_name]): a row counts when an earlier row has the same key. -/
def dupCountAux : List Row → List (PyVal × PyVal × PyVal) → Nat
  | [], _ => 0
  | r :: rs, seen =>
    (if seen.contains (rowKey r) then 1 else 0) + dupCountAux rs (rowKey r :: seen)

/-- Total duplicate count for a row list. -/
def dupCount (rows : List Row) : Nat := dupCountAux rows []

/-- The findings contributed by one required column (models.py lines
185-198); a column absent from the frame contributes nothing here. -/
def DataFrameConverter.columnFindings (df : DataFrame) (c : String) : List String :=
  if !(df.columns.contains c) then []
  else if c == "asof_date" then
    if !isDatetime64Dtype (colDtype (colCells df c)) && !((colCells df c).all isDateInstance)
    then ["Column " ++ sqt ++ c ++ sqt ++ " must contain date objects"] else []
  else if c == "ticker" then
    if !(colDtype (colCells df c) == Dtype.object) || (colCells df c).any pdIsNA
    then ["Column " ++ sqt ++ c ++ sqt ++ " must contain non-null strings"] else []
  else if c == "signal_name" then
    if !(colDtype (colCells df c) == Dtype.object) || (colCells df c).any pdIsNA
    then ["Column " ++ sqt ++ c ++ sqt ++ " must contain non-null strings"] else []
  else if c == "value" then
    if !isNumericDtype (colDtype (colCells df c))
    then ["Column " ++ sqt ++ c ++ sqt ++ " must contain numeric values"] else []
  else []

/-- The duplicate-count finding message. -/
def dupMsg (n : Nat) : String :=
  "Found " ++ toString n ++ " duplicate signal records (same asof_date, ticker, signal_name)"

/-- A Python value the pandas hash-based factorizer cannot hash: of this
model's value universe, exactly the dict cells. -/
def isUnhashable : PyVal → Bool
  | .dict _ => true
  | _ => false

/-- The TypeError message raised when df.duplicated hashes an unhashable
cell. -/
def unhashableMsg : String := "unhashable type: " ++ sqt ++ "dict" ++ sqt

/-- True when some row of the frame holds an unhashable cell in one of
the three key columns, the columns df.duplicated factorizes. -/
def DataFrame.keyUnhashable (df : DataFrame) : Bool :=
  df.rows.any (fun r =>
    isUnhashable (rowGet r "asof_date") || isUnhashable (rowGet r "ticker")
      || isUnhashable (rowGet r "signal_name"))

/-- DataFrameConverter.validate_dataframe (models.py lines 157-206):
collect findings for missing columns, emptiness (early return), column
types, and duplicate natural keys.  The duplicate check at line 202
(df.duplicated over the key columns) factorizes those columns by hashing
their cells, so an unhashable cell there raises TypeError, discarding the
findings accumulated so far; every other path returns its findings. -/
def DataFrameConverter.validate_dataframe (df : DataFrame) : Except String (List String) :=
  let missing := requiredColumns.filter (fun c => !(df.columns.contains c))
  let e1 := if missing.isEmpty then [] else ["Missing required columns: " ++ pyListRepr missing]
  if df.rows.isEmpty then .ok (e1 ++ ["DataFrame is empty"])
  else
    let e2 := (requiredColumns.map (DataFrameConverter.columnFindings df)).flatten
    if ["asof_date", "ticker", "signal_name"].all (fun c => df.columns.contains c) then
      if df.keyUnhashable then .error unhashableMsg
      else
        let n := dupCount df.rows
        .ok (e1 ++ e2 ++ (if n == 0 then [] else [dupMsg n]))
    else .ok (e1 ++ e2 ++ [])

/-!
Embedding of database_manager.py.  The external database and driver are
modelled by per-call outcome oracles: `StmtOutcome` is what one
`execute_many` call observes, `QueryOutcome` what one `execute_query`
call observes.  A driver error of class psycopg2.Error is caught inside
the gateway (it returns 0 rows / None); any other exception propagates to
the caller, which the `Except` error component models.
-/

/-- Outcome of the driver work inside one execute_many call:
the reconnect inside it failed, the statement succeeded with a rowcount,
the statement raised a psycopg2.Error (caught there), or it raised some
other exception (propagates). -/
inductive StmtOutcome where
  | notConnected
  | ok (rowcount : Nat)
  | pgError (msg : String)
  | exc (msg : String)
deriving DecidableEq

/-- Outcome of the driver work inside one execute_query call. -/
inductive QueryOutcome where
  | notConnected
  | ok (results : List Row)
  | pgError (msg : String)
  | exc (msg : String)
deriving DecidableEq

/-- One parameter tuple of the upsert statement (database_manager.py
lines 301-308). -/
structure UpsertParams where
  asof_date : PyVal
  ticker : PyVal
  signal_name : PyVal
  value : PyVal
  metadata_json : PyVal
  created_at : PyVal
deriving DecidableEq

/-- DatabaseManager.execute_many (database_manager.py lines 219-251):
returns 0 when not connected or when the parameter list is empty; a
psycopg2.Error is caught and also yields 0; any other exception
propagates. -/
def DatabaseManager.execute_many (out : StmtOutcome) (params_list : List UpsertParams) :
    Except String Nat :=
  match out with
  | .notConnected => .ok 0
  | .ok n => if params_list.isEmpty then .ok 0 else .ok n
  | .pgError _ => if params_list.isEmpty then .ok 0 else .ok 0
  | .exc e => if params_list.isEmpty then .ok 0 else .error e

/-- The parameter tuple built for one signal (database_manager.py lines
294-308): a falsy metadata dumps to SQL NULL, a truthy one to its JSON
text; a falsy created_at is replaced by the current time. -/
def DatabaseManager.signalParams (now : PyVal) (s : SignalRaw) : UpsertParams :=
  { asof_date := s.asof_date, ticker := s.ticker, signal_name := s.signal_name,
    value := s.value,
    metadata_json := metadataCell s.metadata,
    created_at := if pyTruthy s.created_at then s.created_at else now }

/-- DatabaseManager.store_signals_raw (database_manager.py lines
253-312): empty input is a no-op returning 0, otherwise one execute_many
call with one parameter tuple per signal. -/
def DatabaseManager.store_signals_raw (out : StmtOutcome) (now : PyVal)
    (signals : List SignalRaw) : Except String Nat :=
  if signals.isEmpty then .ok 0
  else DatabaseManager.execute_many out (signals.map (DatabaseManager.signalParams now))

/-- DatabaseManager.execute_query (database_manager.py lines 184-217):
None when not connected, a frame built from the fetched rows on success
(column set from the first row; no rows give a frame with no columns), a
psycopg2.Error is caught and yields None, any other exception
propagates. -/
def DatabaseManager.execute_query (out : QueryOutcome) : Except String (Option DataFrame) :=
  match out with
  | .notConnected => .ok Option.none
  | .ok results =>
    if results.isEmpty then .ok (Option.some ⟨[], []⟩)
    else .ok (Option.some ⟨((results.headD []).map Prod.fst), results⟩)
  | .pgError _ => .ok Option.none
  | .exc e => .error e

/-- The string of n comma-separated placeholder markers. -/
def placeholders (n : Nat) : String :=
  String.intercalate "," (List.replicate n "%s")

/-- The filtered SELECT built by DatabaseManager.get_signals_raw
(database_manager.py lines 344-365): each predicate joins the WHERE
clause only when its filter is truthy (a None or empty list contributes
nothing), and the ordering clause is always appended. -/
def DatabaseManager.buildSignalsQuery (tickers signal_names : List String)
    (start_date end_date : Option PyVal) : String × List PyVal :=
  let q0 := "SELECT * FROM signal_raw WHERE 1=1"
  let s1 := if tickers.isEmpty then (q0, ([] : List PyVal))
    else (q0 ++ " AND ticker IN (" ++ placeholders tickers.length ++ ")",
      tickers.map (fun t => PyVal.str t Option.none))
  let s2 := if signal_names.isEmpty then s1
    else (s1.1 ++ " AND signal_name IN (" ++ placeholders signal_names.length ++ ")",
      s1.2 ++ signal_names.map (fun t => PyVal.str t Option.none))
  let s3 := match start_date with
    | Option.none => s2
    | Option.some d => (s2.1 ++ " AND asof_date >= %s", s2.2 ++ [d])
  let s4 := match end_date with
    | Option.none => s3
    | Option.some d => (s3.1 ++ " AND asof_date <= %s", s3.2 ++ [d])
  (s4.1 ++ " ORDER BY asof_date DESC, ticker, signal_name", s4.2)

/-- DatabaseManager.get_signals_raw (database_manager.py lines 314-367):
build the filtered query, then run it through execute_query. -/
def DatabaseManager.get_signals_raw (out : QueryOutcome) (tickers signal_names : List String)
    (start_date end_date : Option PyVal) : Except String (Option DataFrame) :=
  let _qp := DatabaseManager.buildSignalsQuery tickers signal_names start_date end_date
  DatabaseManager.execute_query out

/-!
Embedding of signal_inserter.py.  `DbOracle` carries the outcomes of the
external calls one insert_from_dataframe invocation can make:
ensure_connection, create_signal_raw_table and reset_sequence each run at
most once, and the upsert outcome is indexed by the chunk ordinal.
`GatewayCall` records the storage-gateway operations actually issued, so
theorems can speak about which calls were made and in which order.
-/

/-- A storage-gateway operation, as observed by the orchestrator. -/
inductive GatewayCall where
  | ensureConnection
  | createTable
  | resetSequence
  | storeBatch (batch : List SignalRaw)
deriving DecidableEq

/-- Outcomes of the external calls available to one
insert_from_dataframe run.  ensure_connection and create_signal_raw_table
return a Bool in the source but can also raise an exception outside the
psycopg2.Error class, hence Except. -/
structure DbOracle where
  ensureConnection : Except String Bool
  createTable : Except String Bool
  resetSequence : Except String Bool
  upsert : Nat → StmtOutcome

/-- Result dictionary of insert_from_dataframe (signal_inserter.py lines
130-136): the five keys it always carries. -/
structure InsertResult where
  success : Bool
  records_processed : Nat
  records_inserted : Nat
  errors : List String
  warnings : List String
deriving DecidableEq

/-- The freshly initialised result dictionary. -/
def SignalInserter.initResult : InsertResult := ⟨false, 0, 0, [], []⟩

/-- The message wrapping an exception that reaches the outer handler
(signal_inserter.py line 192). -/
def unexpectedMsg (e : String) : String := "Unexpected error during insertion: " ++ e

/-- Number of elements of range(start, stop, step) (the Python builtin,
modelled extensionally). -/
def pyRangeCount (start stop step : Int) : Nat :=
  if 0 < step then (stop - start + step - 1).toNat / step.toNat
  else if step < 0 then (start - stop + (0 - step) - 1).toNat / (0 - step).toNat
  else 0

/-- The list [s, s+1, ..., s+f-1]. -/
def natsFrom : Nat → Nat → List Nat
  | _, 0 => []
  | s, f + 1 => s :: natsFrom (s + 1) f

/-- The element list of range(start, stop, step) for step different from
zero. -/
def pyRangeList (start stop step : Int) : List Int :=
  List.map (fun k : Nat => start + (k : Int) * step) (natsFrom 0 (pyRangeCount start stop step))

/-- The Python builtin range: raises ValueError on a zero step, otherwise
yields its elements. -/
def pyRange (start stop step : Int) : Except String (List Int) :=
  if step = 0 then .error "range() arg 3 must not be zero"
  else .ok (pyRangeList start stop step)

/-- Python slice signals[i : i + bs] for a nonnegative start index (the
only way the batching loop uses it). -/
def pySlice (l : List SignalRaw) (i bs : Int) : List SignalRaw :=
  (l.drop i.toNat).take bs.toNat

/-- The batching loop of insert_from_dataframe (signal_inserter.py lines
171-181): one store_signals_raw call per start index, accumulating the
affected-row counts, converting a raised exception into an error entry
tagged with the 1-based batch number i // batch_size + 1, and always
continuing with the next batch.  The second argument of the recursion is
the chunk ordinal used to index the upsert oracle.  Returns (total
inserted, error entries, batches issued in order). -/
def SignalInserter.runBatchLoop (ora : DbOracle) (now : PyVal) (signals : List SignalRaw)
    (bs : Int) : List Int → Nat → Nat × List String × List (List SignalRaw)
  | [], _ => (0, [], [])
  | i :: rest, k =>
    let batch := pySlice signals i bs
    let r := SignalInserter.runBatchLoop ora now signals bs rest (k + 1)
    match DatabaseManager.store_signals_raw (ora.upsert k) now batch with
    | .ok n => (n + r.1, r.2.1, batch :: r.2.2)
    | .error e =>
      (r.1, ("Failed to insert batch " ++ toString (Int.fdiv i bs + 1) ++ ": " ++ e) :: r.2.1,
       batch :: r.2.2)

/-- The conversion-and-batching tail of insert_from_dataframe
(signal_inserter.py lines 161-189), entered once validation, connection
and schema setup have succeeded: a conversion exception aborts with a
single error; records_processed is set before the loop runs (so a
range() exception still reports it); afterwards success holds exactly
when the error list stayed empty. -/
def SignalInserter.insertPhase2 (ora : DbOracle) (df : DataFrame) (bs : Int) (now : PyVal)
    (tr : List GatewayCall) : InsertResult × List GatewayCall :=
  match DataFrameConverter.dataframe_to_signals_raw df now with
  | .error e =>
    ({ SignalInserter.initResult with
       errors := ["Failed to convert DataFrame to signals: " ++ e] }, tr)
  | .ok signals =>
    match pyRange 0 (signals.length : Int) bs with
    | .error e =>
      let r := { SignalInserter.initResult with
                 records_processed := signals.length
                 errors := [unexpectedMsg e] }
      (r, tr)
    | .ok idxs =>
      let out := SignalInserter.runBatchLoop ora now signals bs idxs 0
      let r : InsertResult := { success := out.2.1.isEmpty
                                records_processed := signals.length
                                records_inserted := out.1
                                errors := out.2.1
                                warnings := [] }
      (r, tr ++ out.2.2.map GatewayCall.storeBatch)

/-- SignalInserter.insert_from_dataframe (signal_inserter.py lines
84-195).  Control flow: optional validation (any finding aborts; a
validation exception falls to the outer handler),
ensure_connection (False aborts; an exception falls to the outer handler),
optional table creation plus sequence reset, then conversion and the
batching loop.  The function also returns the list of storage-gateway
calls it issued. -/
def SignalInserter.insert_from_dataframe (ora : DbOracle) (autoCreate : Bool) (df : DataFrame)
    (validate : Bool) (batch_size : Int) (now : PyVal) : InsertResult × List GatewayCall :=
  match (if validate then DataFrameConverter.validate_dataframe df else .ok []) with
  | .error e => ({ SignalInserter.initResult with errors := [unexpectedMsg e] }, [])
  | .ok ve =>
    if !ve.isEmpty then ({ SignalInserter.initResult with errors := ve }, [])
    else
      match ora.ensureConnection with
      | .error e =>
        ({ SignalInserter.initResult with errors := [unexpectedMsg e] }, [.ensureConnection])
      | .ok false =>
        ({ SignalInserter.initResult with errors := ["Failed to connect to database"] },
         [.ensureConnection])
      | .ok true =>
        if autoCreate then
          match ora.createTable with
          | .error e =>
            ({ SignalInserter.initResult with errors := [unexpectedMsg e] },
             [.ensureConnection, .createTable])
          | .ok false =>
            ({ SignalInserter.initResult with errors := ["Failed to create signal_raw table"] },
             [.ensureConnection, .createTable])
          | .ok true =>
            match ora.resetSequence with
            | .error e =>
              ({ SignalInserter.initResult with errors := [unexpectedMsg e] },
               [.ensureConnection, .createTable, .resetSequence])
            | .ok _ =>
              SignalInserter.insertPhase2 ora df batch_size now
                [.ensureConnection, .createTable, .resetSequence]
        else SignalInserter.insertPhase2 ora df batch_size now [.ensureConnection]

/-- SignalInserter.insert_single_signal (signal_inserter.py lines
298-363): construct the record (validation failures are caught and give
False before any gateway call), ensure connection, optionally create the
table and reset the sequence, store a single-element batch, and return
whether the affected count is positive; every exception in the path is
caught and converted to False.  Also returns the gateway calls issued. -/
def SignalInserter.insert_single_signal (ora : DbOracle) (autoCreate : Bool)
    (asof_date ticker signal_name value : PyVal) (metadata : Option Json) (now : PyVal) :
    Bool × List GatewayCall :=
  match SignalRaw.make asof_date ticker signal_name value metadata Option.none now with
  | .error _ => (false, [])
  | .ok s =>
    match ora.ensureConnection with
    | .error _ => (false, [.ensureConnection])
    | .ok false => (false, [.ensureConnection])
    | .ok true =>
      if autoCreate then
        match ora.createTable with
        | .error _ => (false, [.ensureConnection, .createTable])
        | .ok false => (false, [.ensureConnection, .createTable])
        | .ok true =>
          match ora.resetSequence with
          | .error _ => (false, [.ensureConnection, .createTable, .resetSequence])
          | .ok _ =>
            match DatabaseManager.store_signals_raw (ora.upsert 0) now [s] with
            | .error _ => (false, [.ensureConnection, .createTable, .resetSequence,
                                   .storeBatch [s]])
            | .ok n => (decide (0 < n), [.ensureConnection, .createTable, .resetSequence,
                                         .storeBatch [s]])
      else
        match DatabaseManager.store_signals_raw (ora.upsert 0) now [s] with
        | .error _ => (false, [.ensureConnection, .storeBatch [s]])
        | .ok n => (decide (0 < n), [.ensureConnection, .storeBatch [s]])

/-- SignalInserter.get_existing_signals (signal_inserter.py lines
380-427): a failed ensure_connection gives an empty frame; otherwise the
result of get_signals_raw is returned as is (which is Python None when
execute_query caught a driver error); an exception anywhere in the path
is caught and gives an empty frame. -/
def SignalInserter.get_existing_signals (ensureConn : Except String Bool) (out : QueryOutcome)
    (tickers signal_names : List String) (start_date end_date : Option PyVal) :
    Option DataFrame :=
  match ensureConn with
  | .error _ => Option.some ⟨[], []⟩
  | .ok false => Option.some ⟨[], []⟩
  | .ok true =>
    match DatabaseManager.get_signals_raw out tickers signal_names start_date end_date with
    | .ok r => r
    | .error _ => Option.some ⟨[], []⟩

/-!
Concrete fixtures used by witnesses and counterexamples.
-/

/-- A well-formed row with a distinct date per index. -/
def mkRow (k : Nat) : Row :=
  [("asof_date", PyVal.date (100 + k)), ("ticker", PyVal.str "AAPL" Option.none),
   ("signal_name", PyVal.str "RSI" Option.none), ("value", PyVal.float (PyFloat.finite 1))]

/-- A valid five-record frame. -/
def df5 : DataFrame := ⟨requiredColumns, [mkRow 0, mkRow 1, mkRow 2, mkRow 3, mkRow 4]⟩

/-- A fixed current time. -/
def now0 : PyVal := PyVal.datetime 500 0

/-- An oracle on which every external call succeeds. -/
def oraGood : DbOracle :=
  { ensureConnection := .ok true, createTable := .ok true, resetSequence := .ok true,
    upsert := fun _ => .ok 2 }

/-- An oracle whose second chunk statement raises a psycopg2.Error (the
first inserts 2 rows, the third 1). -/
def oraMidFail : DbOracle :=
  { ensureConnection := .ok true, createTable := .ok true, resetSequence := .ok true,
    upsert := fun k => if k == 1 then .pgError "boom" else if k == 0 then .ok 2 else .ok 1 }

/-- The batch carried by a storeBatch gateway call. -/
def storeBatchOf : GatewayCall → Option (List SignalRaw)
  | .storeBatch b => Option.some b
  | _ => Option.none

/-!
Claim C4.
-/

/-- Claim C4, counterexample: constructing a SignalRecord whose value is
float NaN succeeds even though NaN is not a finite number, so
construction does not raise for every non-finite value as the claim
states. -/
theorem C4_counterexample :
    (SignalRaw.make (PyVal.date 1) (PyVal.str "AAPL" Option.none)
        (PyVal.str "RSI" Option.none) (PyVal.float PyFloat.nan)
        Option.none Option.none now0).isOk = true ∧
      isFiniteNumber (PyVal.float PyFloat.nan) = false := by
  decide

/-- Claim C4 (amended): SignalRaw construction succeeds exactly when the
ticker and signal_name are non-empty strings, the value is a number in
Python's isinstance sense (int, float or bool; NaN and the infinities are
accepted, finiteness is not checked), and asof_date is a date instance;
it raises otherwise. -/
theorem C4_amended_theorem (a t s v : PyVal) (md : Option Json) (ca : Option PyVal)
    (now : PyVal) :
    (SignalRaw.make a t s v md ca now).isOk =
      (pyTruthy t && isPyStr t && (pyTruthy s && isPyStr s)
        && isPyNumber v && isDateInstance a) := by
  unfold SignalRaw.make
  cases h1 : pyTruthy t <;> cases h2 : isPyStr t <;>
    cases h3 : pyTruthy s <;> cases h4 : isPyStr s <;>
    cases h5 : isPyNumber v <;> cases h6 : isDateInstance a <;>
    simp [h1, h2, h3, h4, h5, h6, Except.isOk, Except.toBool]

/-!
Claim C6.
-/

/-- Claim C6, counterexample: when the statement execution fails with a
driver error, get_existing_signals returns Python None, not an empty
table, so a failure in the path does propagate a non-table value to the
caller. -/
theorem C6_counterexample :
    SignalInserter.get_existing_signals (.ok true)
      (.pgError "server closed the connection unexpectedly") [] []
      Option.none Option.none = Option.none := by
  rfl

/-- Claim C6 (amended): get_existing_signals returns an empty table when
ensure_connection fails or raises, and when the query path raises an
exception; but when the gateway catches a driver error (or loses the
connection inside execute_query) it forwards the gateway's None sentinel
to the caller instead of an empty table; a fetch that succeeds returns
its table. -/
theorem C6_amended_theorem (ec : Except String Bool) (out : QueryOutcome)
    (tk sn : List String) (sd ed : Option PyVal) :
    (∀ e, ec = .error e →
      SignalInserter.get_existing_signals ec out tk sn sd ed = Option.some ⟨[], []⟩) ∧
    (ec = .ok false →
      SignalInserter.get_existing_signals ec out tk sn sd ed = Option.some ⟨[], []⟩) ∧
    (∀ m, ec = .ok true → out = .exc m →
      SignalInserter.get_existing_signals ec out tk sn sd ed = Option.some ⟨[], []⟩) ∧
    (∀ m, ec = .ok true → out = .pgError m →
      SignalInserter.get_existing_signals ec out tk sn sd ed = Option.none) ∧
    (ec = .ok true → out = .notConnected →
      SignalInserter.get_existing_signals ec out tk sn sd ed = Option.none) ∧
    (∀ rows, ec = .ok true → out = .ok rows →
      ∃ t, SignalInserter.get_existing_signals ec out tk sn sd ed = Option.some t) := by
  refine ⟨?_, ?_, ?_, ?_, ?_, ?_⟩
  · intro e he; subst he; rfl
  · intro he; subst he; rfl
  · intro m he ho; subst he; subst ho; rfl
  · intro m he ho; subst he; subst ho; rfl
  · intro he ho; subst he; subst ho; rfl
  · intro rows he ho
    subst he; subst ho
    unfold SignalInserter.get_existing_signals DatabaseManager.get_signals_raw
      DatabaseManager.execute_query
    by_cases h : rows.isEmpty
    · exact ⟨⟨[], []⟩, by simp [h]⟩
    · exact ⟨⟨(rows.headD []).map Prod.fst, rows⟩, by simp [h]⟩

/-- Claim C6, witness: the amended theorem applied at a concrete filter
and a concrete driver failure. -/
theorem C6_amended_witness :
    SignalInserter.get_existing_signals (.ok true) (.pgError "syntax error")
      ["AAPL", "MSFT"] [] Option.none Option.none = Option.none :=
  (C6_amended_theorem (.ok true) (.pgError "syntax error") ["AAPL", "MSFT"] []
      Option.none Option.none).2.2.2.1 "syntax error" rfl rfl

/-!
Claim C2.
-/

/-- Claim C2: the code does not validate batchSize at all.  Evaluating
insert_from_dataframe at batch_size = -1 over the valid five-record frame
shows the failing behaviour: the call reports success with five records
processed, zero records inserted, no error entry, and no upsert call is
ever issued, exactly the silent zero-chunk processing the claim says must
be rejected. -/
theorem C2_code_behavior :
    (SignalInserter.insert_from_dataframe oraGood true df5 true (-1) now0).1.success = true ∧
    (SignalInserter.insert_from_dataframe oraGood true df5 true (-1) now0).1.errors = [] ∧
    (SignalInserter.insert_from_dataframe oraGood true df5 true (-1) now0).1.records_inserted
      = 0 ∧
    (SignalInserter.insert_from_dataframe oraGood true df5 true (-1) now0).1.records_processed
      = 5 ∧
    (SignalInserter.insert_from_dataframe oraGood true df5 true (-1) now0).2.filterMap
      storeBatchOf = [] := by
  decide

/-!
Claim C1, counterexample.
-/

/-- Claim C1, counterexample: over five valid records with batchSize 2,
when the middle chunk's underlying statement fails with a driver error,
the gateway swallows it into an affected count of 0, so no error entry is
appended and success is true — contradicting the claim that a failing
chunk statement appends a tagged error and forces success = false.
recordsInserted does reflect the two successful chunks (2 + 1 = 3). -/
theorem C1_counterexample :
    (SignalInserter.insert_from_dataframe oraMidFail true df5 true 2 now0).1.errors = [] ∧
    (SignalInserter.insert_from_dataframe oraMidFail true df5 true 2 now0).1.success = true ∧
    (SignalInserter.insert_from_dataframe oraMidFail true df5 true 2 now0).1.records_inserted
      = 3 := by
  decide

/-!
Claim C10.
-/

/-- In every branch of the conversion-and-batching tail, success holds
exactly when the error list is empty, and warnings stay empty. -/
theorem insertPhase2_success_iff (ora : DbOracle) (df : DataFrame) (bs : Int) (now : PyVal)
    (tr : List GatewayCall) :
    ((SignalInserter.insertPhase2 ora df bs now tr).1.success = true ↔
      (SignalInserter.insertPhase2 ora df bs now tr).1.errors = []) ∧
    (SignalInserter.insertPhase2 ora df bs now tr).1.warnings = [] := by
  unfold SignalInserter.insertPhase2
  split
  · simp [SignalInserter.initResult]
  · split
    · simp [SignalInserter.initResult]
    · simp [List.isEmpty_iff]

/-- Claim C10: insert_from_dataframe is a total function of its inputs
and of the database oracle (the model of its never propagating an
exception and always yielding the five-key result dictionary); its
success flag is true exactly when its error list is empty and warnings
are always empty; and an exception raised by ensure_connection is
converted into a single tagged entry of the errors list whenever
validation lets the workflow reach that call. -/
theorem C10_theorem (ora : DbOracle) (ac : Bool) (df : DataFrame) (v : Bool) (bs : Int)
    (now : PyVal) :
    ((SignalInserter.insert_from_dataframe ora ac df v bs now).1.success = true ↔
      (SignalInserter.insert_from_dataframe ora ac df v bs now).1.errors = []) ∧
    (SignalInserter.insert_from_dataframe ora ac df v bs now).1.warnings = [] ∧
    ((v = true → DataFrameConverter.validate_dataframe df = .ok []) →
      ∀ e, ora.ensureConnection = .error e →
        (SignalInserter.insert_from_dataframe ora ac df v bs now).1.errors
          = [unexpectedMsg e]) := by
  unfold SignalInserter.insert_from_dataframe
  match hvv : (if v then DataFrameConverter.validate_dataframe df else Except.ok []) with
  | .error e =>
    refine ⟨by simp [SignalInserter.initResult, unexpectedMsg],
      by simp [SignalInserter.initResult], ?_⟩
    intro hcon e2 he2
    exfalso
    cases v
    · simp at hvv
    · simp only [if_true] at hvv
      rw [hcon rfl] at hvv
      simp at hvv
  | .ok ve =>
    by_cases hne : ve.isEmpty
    · have hveq : ve = [] := List.isEmpty_iff.1 hne
      subst hveq
      simp only [List.isEmpty_nil, Bool.not_true, Bool.false_eq_true, if_false]
      match hec : ora.ensureConnection with
      | .error e =>
        refine ⟨by simp [SignalInserter.initResult, unexpectedMsg],
          by simp [SignalInserter.initResult], ?_⟩
        intro _ e2 he2
        cases he2
        rfl
      | .ok false =>
        refine ⟨by simp [SignalInserter.initResult], by simp [SignalInserter.initResult], ?_⟩
        intro _ e2 he2
        simp at he2
      | .ok true =>
        cases ac
        · simp only [Bool.false_eq_true, if_false]
          refine ⟨(insertPhase2_success_iff ora df bs now _).1,
            (insertPhase2_success_iff ora df bs now _).2, ?_⟩
          intro _ e2 he2
          simp at he2
        · simp only [if_true]
          match ora.createTable with
          | .error e =>
            refine ⟨by simp [SignalInserter.initResult, unexpectedMsg],
              by simp [SignalInserter.initResult], ?_⟩
            intro _ e2 he2
            simp at he2
          | .ok false =>
            refine ⟨by simp [SignalInserter.initResult], by simp [SignalInserter.initResult], ?_⟩
            intro _ e2 he2
            simp at he2
          | .ok true =>
            match ora.resetSequence with
            | .error e =>
              refine ⟨by simp [SignalInserter.initResult, unexpectedMsg],
                by simp [SignalInserter.initResult], ?_⟩
              intro _ e2 he2
              simp at he2
            | .ok b =>
              refine ⟨(insertPhase2_success_iff ora df bs now _).1,
                (insertPhase2_success_iff ora df bs now _).2, ?_⟩
              intro _ e2 he2
              simp at he2
    · have hneq : ve.isEmpty = false := by
        cases h2 : ve.isEmpty
        · rfl
        · exact absurd h2 hne
      have hvene : ve ≠ [] := by
        intro hh
        rw [hh] at hneq
        simp at hneq
      simp only [hneq, Bool.not_false, if_true]
      refine ⟨by simp [SignalInserter.initResult, hvene],
        by simp [SignalInserter.initResult], ?_⟩
      intro hcon e2 he2
      exfalso
      cases v
      · simp at hvv
        exact hvene hvv
      · simp only [if_true] at hvv
        rw [hcon rfl] at hvv
        simp at hvv
        exact hvene hvv

/-- Claim C10, witness: the exception-conversion clause applied at the
valid five-record frame and an oracle whose connection call raises. -/
theorem C10_witness :
    (SignalInserter.insert_from_dataframe
      { ensureConnection := .error "socket timeout", createTable := .ok true,
        resetSequence := .ok true, upsert := fun _ => .ok 1 }
      true df5 true 2 now0).1.errors = [unexpectedMsg "socket timeout"] :=
  (C10_theorem
      { ensureConnection := .error "socket timeout", createTable := .ok true,
        resetSequence := .ok true, upsert := fun _ => .ok 1 }
      true df5 true 2 now0).2.2 (fun _ => rfl) "socket timeout" rfl

/-!
Characterisation of the batching loop, shared by claims C1 and C3.
-/

/-- The affected-row count one chunk contributes: the rowcount on
success, 0 when the gateway ate the failure (reconnect failure or caught
driver error) and 0 when the call raised. -/
def chunkResult : StmtOutcome → Nat
  | .ok n => n
  | _ => 0

/-- The error entry one chunk contributes: only a chunk whose store call
raised contributes, tagged with the 1-based batch number. -/
def chunkError (p : Nat) (o : StmtOutcome) : Option String :=
  match o with
  | .exc e => Option.some ("Failed to insert batch " ++ toString ((p : Int) + 1) ++ ": " ++ e)
  | _ => Option.none

/-- Chunk number p of the converted record list. -/
def chunkOf (signals : List SignalRaw) (bs : Int) (p : Nat) : List SignalRaw :=
  (signals.drop (p * bs.toNat)).take bs.toNat

/-- Number of chunks: the ceiling of n / batch_size. -/
def numChunks (n : Nat) (bs : Int) : Nat := (n + bs.toNat - 1) / bs.toNat

/-- Membership in natsFrom s f is the interval [s, s + f). -/
theorem mem_natsFrom (q : Nat) : ∀ (f s : Nat), q ∈ natsFrom s f ↔ s ≤ q ∧ q < s + f := by
  intro f
  induction f with
  | zero => intro s; simp [natsFrom]
  | succ f ih =>
    intro s
    simp only [natsFrom, List.mem_cons, ih (s + 1)]
    omega

/-- A chunk ordinal is in range exactly when its start index is. -/
theorem lt_numChunks_iff (n : Nat) (bs : Int) (hbs : 1 ≤ bs) (p : Nat) :
    p < numChunks n bs ↔ p * bs.toNat < n := by
  have hb : 0 < bs.toNat := by omega
  unfold numChunks
  rw [Nat.lt_iff_add_one_le, Nat.le_div_iff_mul_le hb, Nat.succ_mul]
  omega

/-- For a positive step, the Python range element count over [0, n) is
the chunk count. -/
theorem pyRangeCount_zero (n : Nat) (bs : Int) (hbs : 1 ≤ bs) :
    pyRangeCount 0 (n : Int) bs = numChunks n bs := by
  unfold pyRangeCount numChunks
  rw [if_pos (by omega : (0 : Int) < bs)]
  have h1 : ((n : Int) - 0 + bs - 1).toNat = n + bs.toNat - 1 := by omega
  rw [h1]

/-- For a positive step, range(0, n, bs) yields the chunk start
indices. -/
theorem pyRange_pos (n : Nat) (bs : Int) (hbs : 1 ≤ bs) :
    pyRange 0 (n : Int) bs =
      .ok (List.map (fun k : Nat => (k : Int) * bs) (natsFrom 0 (numChunks n bs))) := by
  unfold pyRange pyRangeList
  rw [if_neg (by omega : ¬bs = 0), pyRangeCount_zero n bs hbs]
  simp

/-- The Python slice at a chunk start index is that chunk. -/
theorem pySlice_chunk (signals : List SignalRaw) (bs : Int) (hbs : 1 ≤ bs) (p : Nat) :
    pySlice signals ((p : Int) * bs) bs = chunkOf signals bs p := by
  unfold pySlice chunkOf
  have hb0 : (0 : Int) ≤ bs := by omega
  have h : ((p : Int) * bs).toNat = p * bs.toNat := by
    lift bs to ℕ using hb0 with b hb
    rw [← Nat.cast_mul, Int.toNat_ofNat, Int.toNat_ofNat]
  rw [h]

/-- Floor division recovers the chunk ordinal from its start index. -/
theorem fdiv_chunk_start (p : Nat) (bs : Int) (hbs : 1 ≤ bs) :
    Int.fdiv ((p : Int) * bs) bs = (p : Int) :=
  Int.mul_fdiv_cancel (p : Int) (by omega)

/-- An in-range chunk is nonempty. -/
theorem chunkOf_ne_empty (signals : List SignalRaw) (bs : Int) (hbs : 1 ≤ bs) (p : Nat)
    (hp : p * bs.toNat < signals.length) : (chunkOf signals bs p).isEmpty = false := by
  have hlen : 0 < (chunkOf signals bs p).length := by
    unfold chunkOf
    rw [List.length_take, List.length_drop]
    omega
  cases h : chunkOf signals bs p
  · rw [h] at hlen; simp at hlen
  · rfl

/-- On a nonempty batch, store_signals_raw is a single execute_many call
and reduces to a case split on the statement outcome. -/
theorem store_signals_raw_nonempty (out : StmtOutcome) (now : PyVal)
    (signals : List SignalRaw) (h : signals.isEmpty = false) :
    DatabaseManager.store_signals_raw out now signals =
      match out with
      | .notConnected => .ok 0
      | .ok n => .ok n
      | .pgError _ => .ok 0
      | .exc e => .error e := by
  unfold DatabaseManager.store_signals_raw DatabaseManager.execute_many
  rw [h]
  have hm : (signals.map (DatabaseManager.signalParams now)).isEmpty = false := by
    cases signals
    · simp at h
    · rfl
  cases out <;> simp [hm]

/-- Master characterisation of the batching loop over the chunk start
indices from ordinal p on: the inserted total is the sum of the chunk
results, the error list collects exactly the raising chunks' tagged
messages, and the issued batches are the chunks in order. -/
theorem runBatchLoop_spec (ora : DbOracle) (now : PyVal) (signals : List SignalRaw) (bs : Int)
    (hbs : 1 ≤ bs) :
    ∀ (f p : Nat), numChunks signals.length bs - p = f →
      SignalInserter.runBatchLoop ora now signals bs
          (List.map (fun k : Nat => (k : Int) * bs) (natsFrom p f)) p =
        (((natsFrom p f).map (fun q => chunkResult (ora.upsert q))).sum,
         (natsFrom p f).filterMap (fun q => chunkError q (ora.upsert q)),
         (natsFrom p f).map (fun q => chunkOf signals bs q)) := by
  intro f
  induction f with
  | zero => intro p _; rfl
  | succ f ih =>
    intro p hp
    have hplt : p < numChunks signals.length bs := by omega
    have hpbs : p * bs.toNat < signals.length := (lt_numChunks_iff _ bs hbs p).1 hplt
    have hne := chunkOf_ne_empty signals bs hbs p hpbs
    have hrec := ih (p + 1) (by omega)
    simp only [natsFrom, List.map_cons, List.filterMap_cons, List.sum_cons,
      SignalInserter.runBatchLoop]
    rw [pySlice_chunk signals bs hbs p, hrec,
      store_signals_raw_nonempty (ora.upsert p) now _ hne]
    cases ho : ora.upsert p <;>
      simp [chunkResult, chunkError, fdiv_chunk_start p bs hbs]

/-- The chunks from ordinal p on, concatenated, are the record list from
chunk p's start index on. -/
theorem chunks_flatten (signals : List SignalRaw) (bs : Int) (hbs : 1 ≤ bs) :
    ∀ (f p : Nat), numChunks signals.length bs - p = f →
      (List.map (fun q => chunkOf signals bs q) (natsFrom p f)).flatten
        = signals.drop (p * bs.toNat) := by
  intro f
  induction f with
  | zero =>
    intro p hp
    have h1 : ¬ p < numChunks signals.length bs := by omega
    have h2 : ¬ p * bs.toNat < signals.length :=
      fun hc => h1 ((lt_numChunks_iff _ bs hbs p).2 hc)
    simp only [natsFrom, List.map_nil, List.flatten_nil]
    exact (List.drop_eq_nil_of_le (by omega)).symm
  | succ f ih =>
    intro p hp
    simp only [natsFrom, List.map_cons, List.flatten_cons]
    rw [ih (p + 1) (by omega)]
    unfold chunkOf
    rw [show (p + 1) * bs.toNat = p * bs.toNat + bs.toNat from by ring]
    rw [← List.drop_drop]
    exact List.take_append_drop _ _

/-- Every chunk has length at most the batch size; an in-range chunk is
nonempty. -/
theorem chunkOf_length (signals : List SignalRaw) (bs : Int) (hbs : 1 ≤ bs) (q : Nat)
    (hq : q < numChunks signals.length bs) :
    0 < (chunkOf signals bs q).length ∧ (chunkOf signals bs q).length ≤ bs.toNat := by
  have hlt : q * bs.toNat < signals.length := (lt_numChunks_iff _ bs hbs q).1 hq
  unfold chunkOf
  rw [List.length_take, List.length_drop]
  omega

/-- Every chunk other than the last has length exactly the batch size. -/
theorem chunkOf_length_full (signals : List SignalRaw) (bs : Int) (hbs : 1 ≤ bs) (q : Nat)
    (hq : q + 1 < numChunks signals.length bs) :
    (chunkOf signals bs q).length = bs.toNat := by
  have hlt : (q + 1) * bs.toNat < signals.length := (lt_numChunks_iff _ bs hbs (q + 1)).1 hq
  rw [Nat.succ_mul] at hlt
  unfold chunkOf
  rw [List.length_take, List.length_drop]
  omega

/-- natsFrom has length f. -/
theorem natsFrom_length : ∀ (f s : Nat), (natsFrom s f).length = f := by
  intro f
  induction f with
  | zero => intro s; rfl
  | succ f ih => intro s; simp [natsFrom, ih]

/-- Projecting the store calls out of a trace built from batches. -/
theorem filterMap_storeBatch (batches : List (List SignalRaw)) :
    (batches.map GatewayCall.storeBatch).filterMap storeBatchOf = batches := by
  induction batches with
  | nil => rfl
  | cons b bs ih => simp [storeBatchOf, ih]

/-- Successful row conversion preserves the row count. -/
theorem rowsToSignals_length (cols : List String) (now : PyVal) :
    ∀ (rows : List Row) (signals : List SignalRaw),
      DataFrameConverter.rowsToSignals cols now rows = .ok signals →
      signals.length = rows.length := by
  intro rows
  induction rows with
  | nil =>
    intro signals h
    simp only [DataFrameConverter.rowsToSignals] at h
    cases h
    rfl
  | cons r rs ih =>
    intro signals h
    simp only [DataFrameConverter.rowsToSignals] at h
    cases hr : DataFrameConverter.rowToSignal cols now r with
    | error e => rw [hr] at h; cases h
    | ok s =>
      rw [hr] at h
      cases hrs : DataFrameConverter.rowsToSignals cols now rs with
      | error e => rw [hrs] at h; cases h
      | ok ss =>
        rw [hrs] at h
        cases h
        simp [ih ss hrs]

/-- Successful frame conversion preserves the row count. -/
theorem conv_length (df : DataFrame) (now : PyVal) (signals : List SignalRaw)
    (h : DataFrameConverter.dataframe_to_signals_raw df now = .ok signals) :
    signals.length = df.rows.length := by
  unfold DataFrameConverter.dataframe_to_signals_raw at h
  by_cases hm : (List.filter (fun c => !df.columns.contains c) requiredColumns).isEmpty
  · simp only [hm, Bool.not_true, Bool.false_eq_true, if_false] at h
    exact rowsToSignals_length df.columns now df.rows signals h
  · rw [Bool.not_eq_true] at hm
    simp only [hm, Bool.not_false, if_true] at h
    cases h

/-- The gateway-call prefix issued before the batching loop. -/
def setupTrace (ac : Bool) : List GatewayCall :=
  if ac then [.ensureConnection, .createTable, .resetSequence] else [.ensureConnection]

/-- When validation passes, the connection is up, schema setup succeeds
and conversion succeeds, insert_from_dataframe reduces to the
characterised batching loop over the chunks of the converted records. -/
theorem insert_reaches_loop (ora : DbOracle) (df : DataFrame) (now : PyVal) (v ac : Bool)
    (bs : Int) (signals : List SignalRaw)
    (hbs : 1 ≤ bs)
    (hval : v = true → DataFrameConverter.validate_dataframe df = .ok [])
    (hconn : ora.ensureConnection = .ok true)
    (hct : ac = true → ora.createTable = .ok true)
    (hrs : ac = true → ∃ b, ora.resetSequence = .ok b)
    (hconv : DataFrameConverter.dataframe_to_signals_raw df now = .ok signals) :
    SignalInserter.insert_from_dataframe ora ac df v bs now =
      ({ success :=
           (List.filterMap (fun q => chunkError q (ora.upsert q))
             (natsFrom 0 (numChunks signals.length bs))).isEmpty
         records_processed := signals.length
         records_inserted :=
           (List.map (fun q => chunkResult (ora.upsert q))
             (natsFrom 0 (numChunks signals.length bs))).sum
         errors :=
           List.filterMap (fun q => chunkError q (ora.upsert q))
             (natsFrom 0 (numChunks signals.length bs))
         warnings := [] },
       setupTrace ac ++
         (List.map (fun q => chunkOf signals bs q)
           (natsFrom 0 (numChunks signals.length bs))).map GatewayCall.storeBatch) := by
  have hphase : SignalInserter.insertPhase2 ora df bs now (setupTrace ac) = _ := rfl
  unfold SignalInserter.insert_from_dataframe
  have hve : (if v then DataFrameConverter.validate_dataframe df else Except.ok [])
      = Except.ok ([] : List String) := by
    cases v
    · rfl
    · exact hval rfl
  rw [hve]
  simp only [List.isEmpty_nil, Bool.not_true, Bool.false_eq_true, if_false]
  rw [hconn]
  have hbody : SignalInserter.insertPhase2 ora df bs now (setupTrace ac) =
      ({ success :=
           (List.filterMap (fun q => chunkError q (ora.upsert q))
             (natsFrom 0 (numChunks signals.length bs))).isEmpty
         records_processed := signals.length
         records_inserted :=
           (List.map (fun q => chunkResult (ora.upsert q))
             (natsFrom 0 (numChunks signals.length bs))).sum
         errors :=
           List.filterMap (fun q => chunkError q (ora.upsert q))
             (natsFrom 0 (numChunks signals.length bs))
         warnings := [] },
       setupTrace ac ++
         (List.map (fun q => chunkOf signals bs q)
           (natsFrom 0 (numChunks signals.length bs))).map GatewayCall.storeBatch) := by
    unfold SignalInserter.insertPhase2
    simp only [hconv, pyRange_pos signals.length bs hbs,
      runBatchLoop_spec ora now signals bs hbs (numChunks signals.length bs) 0
        (Nat.sub_zero _)]
  cases ac
  · simp only [Bool.false_eq_true, if_false]
    rw [show setupTrace false = [GatewayCall.ensureConnection] from rfl] at hbody
    exact hbody
  · simp only [if_true]
    rw [hct rfl]
    obtain ⟨b, hb⟩ := hrs rfl
    rw [hb]
    rw [show setupTrace true
      = [GatewayCall.ensureConnection, GatewayCall.createTable, GatewayCall.resetSequence]
      from rfl] at hbody
    exact hbody

/-!
Claim C3.
-/

/-- Claim C3: when a valid table reaches the batching stage (validation
passes, connection, schema setup and conversion succeed) with
batchSize >= 1, insert_from_dataframe issues exactly one upsert call per
chunk, in order; the chunks are the consecutive slices of the converted
records, their concatenation is the whole record list, there are
ceil(n / batchSize) of them (numChunks), every chunk is nonempty with at
most batchSize records and every chunk but the last has exactly
batchSize; and records_processed is the table's row count. -/
theorem C3_theorem (ora : DbOracle) (df : DataFrame) (now : PyVal) (v ac : Bool) (bs : Int)
    (signals : List SignalRaw)
    (hbs : 1 ≤ bs)
    (hval : v = true → DataFrameConverter.validate_dataframe df = .ok [])
    (hconn : ora.ensureConnection = .ok true)
    (hct : ac = true → ora.createTable = .ok true)
    (hrs : ac = true → ∃ b, ora.resetSequence = .ok b)
    (hconv : DataFrameConverter.dataframe_to_signals_raw df now = .ok signals) :
    (SignalInserter.insert_from_dataframe ora ac df v bs now).1.records_processed
      = df.rows.length ∧
    (SignalInserter.insert_from_dataframe ora ac df v bs now).2.filterMap storeBatchOf
      = List.map (fun q => chunkOf signals bs q) (natsFrom 0 (numChunks signals.length bs)) ∧
    ((SignalInserter.insert_from_dataframe ora ac df v bs now).2.filterMap storeBatchOf).length
      = numChunks signals.length bs ∧
    ((SignalInserter.insert_from_dataframe ora ac df v bs now).2.filterMap storeBatchOf).flatten
      = signals ∧
    (∀ q, q < numChunks signals.length bs →
      0 < (chunkOf signals bs q).length ∧ (chunkOf signals bs q).length ≤ bs.toNat) ∧
    (∀ q, q + 1 < numChunks signals.length bs →
      (chunkOf signals bs q).length = bs.toNat) ∧
    signals.length = df.rows.length := by
  have hre := insert_reaches_loop ora df now v ac bs signals hbs hval hconn hct hrs hconv
  have htr : (SignalInserter.insert_from_dataframe ora ac df v bs now).2.filterMap storeBatchOf
      = List.map (fun q => chunkOf signals bs q)
          (natsFrom 0 (numChunks signals.length bs)) := by
    rw [hre]
    show (setupTrace ac ++ _).filterMap storeBatchOf = _
    rw [List.filterMap_append]
    have h0 : (setupTrace ac).filterMap storeBatchOf = [] := by
      cases ac <;> rfl
    rw [h0, filterMap_storeBatch, List.nil_append]
  refine ⟨?_, htr, ?_, ?_, ?_, ?_, conv_length df now signals hconv⟩
  · rw [hre]
    exact conv_length df now signals hconv
  · rw [htr, List.length_map, natsFrom_length]
  · rw [htr]
    have h := chunks_flatten signals bs hbs (numChunks signals.length bs) 0 (Nat.sub_zero _)
    simpa using h
  · intro q hq
    exact chunkOf_length signals bs hbs q hq
  · intro q hq
    exact chunkOf_length_full signals bs hbs q hq

/-- The converted records of df5. -/
def sig5 (k : Nat) : SignalRaw :=
  ⟨PyVal.date (100 + k), PyVal.str "AAPL" Option.none, PyVal.str "RSI" Option.none,
   PyVal.float (PyFloat.finite 1), Option.none, now0⟩

/-- The five converted records of df5. -/
def sigs5 : List SignalRaw := [sig5 0, sig5 1, sig5 2, sig5 3, sig5 4]

/-- Claim C3, witness: the claim's own concrete instance — batchSize 2
over the valid five-record frame issues exactly 3 upsert calls of sizes
2, 2, 1 with records_processed 5. -/
theorem C3_witness :
    (SignalInserter.insert_from_dataframe oraGood true df5 true 2 now0).1.records_processed
      = 5 ∧
    ((SignalInserter.insert_from_dataframe oraGood true df5 true 2 now0).2.filterMap
      storeBatchOf).map List.length = [2, 2, 1] := by
  have h := C3_theorem oraGood df5 now0 true true 2 sigs5 (by decide)
    (fun _ => rfl) rfl (fun _ => rfl) (fun _ => ⟨true, rfl⟩) rfl
  refine ⟨?_, ?_⟩
  · rw [h.1]
    rfl
  · rw [h.2.1]
    rfl

/-!
Claim C1, amended theorem.
-/

/-- Claim C1 (amended): once a table reaches the batching stage with
batchSize >= 1, insert_from_dataframe behaves per chunk as follows: a
chunk whose upsert call raises an exception contributes an error entry
tagged with its 1-based index (chunkError) and nothing to the inserted
count; a chunk whose statement failure is caught by the gateway
contributes an affected count of 0 and no error entry; a succeeding chunk
contributes its affected count; all chunks are attempted regardless of
failures (one store call per chunk); and success holds exactly when no
chunk raised. -/
theorem C1_amended_theorem (ora : DbOracle) (df : DataFrame) (now : PyVal) (v ac : Bool)
    (bs : Int) (signals : List SignalRaw)
    (hbs : 1 ≤ bs)
    (hval : v = true → DataFrameConverter.validate_dataframe df = .ok [])
    (hconn : ora.ensureConnection = .ok true)
    (hct : ac = true → ora.createTable = .ok true)
    (hrs : ac = true → ∃ b, ora.resetSequence = .ok b)
    (hconv : DataFrameConverter.dataframe_to_signals_raw df now = .ok signals) :
    (SignalInserter.insert_from_dataframe ora ac df v bs now).1.errors
      = List.filterMap (fun q => chunkError q (ora.upsert q))
          (natsFrom 0 (numChunks signals.length bs)) ∧
    (SignalInserter.insert_from_dataframe ora ac df v bs now).1.records_inserted
      = (List.map (fun q => chunkResult (ora.upsert q))
          (natsFrom 0 (numChunks signals.length bs))).sum ∧
    ((SignalInserter.insert_from_dataframe ora ac df v bs now).1.success = true ↔
      ∀ q, q < numChunks signals.length bs → ∀ e, ora.upsert q ≠ .exc e) ∧
    ((SignalInserter.insert_from_dataframe ora ac df v bs now).2.filterMap storeBatchOf).length
      = numChunks signals.length bs := by
  have hre := insert_reaches_loop ora df now v ac bs signals hbs hval hconn hct hrs hconv
  refine ⟨by rw [hre], by rw [hre], ?_, ?_⟩
  · rw [hre]
    show (List.filterMap (fun q => chunkError q (ora.upsert q))
        (natsFrom 0 (numChunks signals.length bs))).isEmpty = true ↔ _
    rw [List.isEmpty_iff, List.filterMap_eq_nil_iff]
    constructor
    · intro h q hq e he
      have hmem : q ∈ natsFrom 0 (numChunks signals.length bs) :=
        (mem_natsFrom q _ 0).2 ⟨Nat.zero_le q, by omega⟩
      have := h q hmem
      rw [he] at this
      simp [chunkError] at this
    · intro h q hq
      have hlt : q < numChunks signals.length bs := by
        have := (mem_natsFrom q _ 0).1 hq
        omega
      cases ho : ora.upsert q
      · rfl
      · rfl
      · rfl
      · exact absurd ho (h q hlt _)
  · rw [hre]
    rw [List.filterMap_append]
    have h0 : (setupTrace ac).filterMap storeBatchOf = [] := by
      cases ac <;> rfl
    rw [h0, filterMap_storeBatch, List.nil_append, List.length_map, natsFrom_length]

/-- An oracle whose second chunk's store call raises an exception outside
the driver-error class; the other chunks succeed with 2 rows each. -/
def oraExc : DbOracle :=
  { ensureConnection := .ok true, createTable := .ok true, resetSequence := .ok true,
    upsert := fun k => if k == 1 then .exc "boom2" else .ok 2 }

/-- Claim C1, witness: the amended theorem applied at the five-record
frame with batchSize 2 and a second chunk that raises: its tagged error
is recorded, the other chunks' counts are summed, all three chunks are
attempted, and success is false. -/
theorem C1_amended_witness :
    (SignalInserter.insert_from_dataframe oraExc true df5 true 2 now0).1.errors
      = ["Failed to insert batch 2: boom2"] ∧
    (SignalInserter.insert_from_dataframe oraExc true df5 true 2 now0).1.records_inserted
      = 4 ∧
    (SignalInserter.insert_from_dataframe oraExc true df5 true 2 now0).1.success = false ∧
    ((SignalInserter.insert_from_dataframe oraExc true df5 true 2 now0).2.filterMap
      storeBatchOf).length = 3 := by
  have h := C1_amended_theorem oraExc df5 now0 true true 2 sigs5 (by decide)
    (fun _ => rfl) rfl (fun _ => rfl) (fun _ => ⟨true, rfl⟩) rfl
  refine ⟨?_, ?_, ?_, ?_⟩
  · rw [h.1]
    rfl
  · rw [h.2.1]
    rfl
  · cases hs : (SignalInserter.insert_from_dataframe oraExc true df5 true 2 now0).1.success
    · rfl
    · exfalso
      have hall := h.2.2.1.1 hs
      exact hall 1 (by decide) "boom2" rfl
  · rw [h.2.2.2]
    rfl

/-!
Claim C7.
-/

/-- When every row converts, the whole row list converts. -/
theorem rowsToSignals_ok (cols : List String) (now : PyVal) :
    ∀ rows : List Row,
      (∀ r ∈ rows, (DataFrameConverter.rowToSignal cols now r).isOk = true) →
      (DataFrameConverter.rowsToSignals cols now rows).isOk = true := by
  intro rows
  induction rows with
  | nil => intro _; rfl
  | cons r rs ih =>
    intro h
    have hr := h r (List.mem_cons_self r rs)
    simp only [DataFrameConverter.rowsToSignals]
    cases hcr : DataFrameConverter.rowToSignal cols now r with
    | error e => rw [hcr] at hr; simp [Except.isOk, Except.toBool] at hr
    | ok s =>
      have hrs := ih (fun x hx => h x (List.mem_cons_of_mem r hx))
      cases hcs : DataFrameConverter.rowsToSignals cols now rs with
      | error e => rw [hcs] at hrs; simp [Except.isOk, Except.toBool] at hrs
      | ok ss => rfl

/-- Claim C7: the conversion has its asymmetric error policy.  A frame
missing required columns fails with the error naming exactly the missing
columns (the filter of the required list by absence, in order); whereas a
row whose metadata cell is a string that does not parse as JSON converts
with null metadata — the row's success depends only on its other fields —
and a frame all of whose rows convert converts as a whole, so malformed
metadata never fails the conversion. -/
theorem C7_theorem :
    (∀ df : DataFrame, ∀ now : PyVal,
      requiredColumns.filter (fun c => !(df.columns.contains c)) ≠ [] →
      DataFrameConverter.dataframe_to_signals_raw df now =
        .error ("DataFrame missing required columns: " ++
          pyListRepr (requiredColumns.filter (fun c => !(df.columns.contains c))))) ∧
    (∀ cols : List String, ∀ r : Row, ∀ now : PyVal, ∀ s : String,
      cols.contains "metadata" = true →
      rowGet r "metadata" = PyVal.str s Option.none →
      DataFrameConverter.rowMetadata cols r = Option.none ∧
      DataFrameConverter.rowToSignal cols now r =
        SignalRaw.make (rowGet r "asof_date") (rowGet r "ticker") (rowGet r "signal_name")
          (rowGet r "value") Option.none (DataFrameConverter.rowCreatedAt r) now) ∧
    (∀ df : DataFrame, ∀ now : PyVal,
      requiredColumns.filter (fun c => !(df.columns.contains c)) = [] →
      (∀ r ∈ df.rows, (DataFrameConverter.rowToSignal df.columns now r).isOk = true) →
      (DataFrameConverter.dataframe_to_signals_raw df now).isOk = true) := by
  refine ⟨?_, ?_, ?_⟩
  · intro df now h
    unfold DataFrameConverter.dataframe_to_signals_raw
    have hne : (requiredColumns.filter (fun c => !(df.columns.contains c))).isEmpty = false := by
      cases hc : requiredColumns.filter (fun c => !(df.columns.contains c))
      · exact absurd hc h
      · rfl
    simp only [hne, Bool.not_false, if_true]
  · intro cols r now s hc hm
    have hmeta : DataFrameConverter.rowMetadata cols r = Option.none := by
      unfold DataFrameConverter.rowMetadata
      rw [hm]
      simp [hc, pdIsNA]
    refine ⟨hmeta, ?_⟩
    unfold DataFrameConverter.rowToSignal
    rw [hmeta]
  · intro df now hmiss hall
    unfold DataFrameConverter.dataframe_to_signals_raw
    rw [hmiss]
    simp only [List.isEmpty_nil, Bool.not_true, Bool.false_eq_true, if_false]
    exact rowsToSignals_ok df.columns now df.rows hall

/-- A row whose metadata text is malformed JSON but whose other fields
are valid. -/
def rowBadMeta : Row :=
  [("asof_date", PyVal.date 7), ("ticker", PyVal.str "AAPL" Option.none),
   ("signal_name", PyVal.str "RSI" Option.none), ("value", PyVal.float (PyFloat.finite 1)),
   ("metadata", PyVal.str "not json" Option.none)]

/-- Claim C7, witness: a frame missing asof_date fails naming exactly
that column, and a malformed metadata string degrades to null without
failing the row. -/
theorem C7_witness :
    DataFrameConverter.dataframe_to_signals_raw
      (⟨["ticker", "signal_name", "value"], []⟩ : DataFrame) now0
      = .error ("DataFrame missing required columns: " ++ pyListRepr ["asof_date"]) ∧
    DataFrameConverter.rowMetadata (requiredColumns ++ ["metadata"]) rowBadMeta
      = Option.none ∧
    (DataFrameConverter.dataframe_to_signals_raw
      (⟨requiredColumns ++ ["metadata"], [rowBadMeta]⟩ : DataFrame) now0).isOk = true := by
  refine ⟨?_, ?_, ?_⟩
  · exact C7_theorem.1 ⟨["ticker", "signal_name", "value"], []⟩ now0 (by decide)
  · exact (C7_theorem.2.1 (requiredColumns ++ ["metadata"]) rowBadMeta now0 "not json"
      (by decide) rfl).1
  · exact C7_theorem.2.2 ⟨requiredColumns ++ ["metadata"], [rowBadMeta]⟩ now0 (by decide)
      (by decide)

/-!
Claim C9.
-/

/-- Claim C9: insert_single_signal with an empty ticker fails record
construction before any gateway call, returning false with an empty
gateway trace; and (the totality of the embedding modelling that no
exception propagates) it returns true only on a fully clean path — a
working connection, successful schema setup when enabled, and an upsert
whose affected count is positive — so every failure or exception
anywhere in the path yields false. -/
theorem C9_theorem (ora : DbOracle) (ac : Bool) (ad sn v : PyVal) (md : Option Json)
    (now : PyVal) :
    (∀ p : Option Json,
      SignalInserter.insert_single_signal ora ac ad (PyVal.str "" p) sn v md now
        = (false, [])) ∧
    (∀ tk : PyVal,
      (SignalInserter.insert_single_signal ora ac ad tk sn v md now).1 = true →
      ora.ensureConnection = .ok true ∧
      (ac = true → ora.createTable = .ok true ∧ ∃ b, ora.resetSequence = .ok b) ∧
      ∃ n, ora.upsert 0 = .ok n ∧ 0 < n) := by
  constructor
  · intro p
    unfold SignalInserter.insert_single_signal
    have hmk : SignalRaw.make ad (PyVal.str "" p) sn v md Option.none now
        = .error "ticker must be a non-empty string" := by
      unfold SignalRaw.make
      simp [pyTruthy]
    rw [hmk]
  · intro tk h
    unfold SignalInserter.insert_single_signal at h
    cases hmk : SignalRaw.make ad tk sn v md Option.none now with
    | error e => rw [hmk] at h; simp at h
    | ok s =>
      rw [hmk] at h
      cases hec : ora.ensureConnection with
      | error e => rw [hec] at h; simp at h
      | ok cb =>
        rw [hec] at h
        cases cb
        · simp at h
        · refine ⟨rfl, ?_⟩
          have hstore : ∀ tr : List GatewayCall,
              ((match DatabaseManager.store_signals_raw (ora.upsert 0) now [s] with
                | .error _ => (false, tr ++ [GatewayCall.storeBatch [s]])
                | .ok n => (decide (0 < n), tr ++ [GatewayCall.storeBatch [s]])).1 = true) →
              ∃ n, ora.upsert 0 = .ok n ∧ 0 < n := by
            intro tr hh
            rw [store_signals_raw_nonempty (ora.upsert 0) now [s] rfl] at hh
            cases ho : ora.upsert 0 with
            | notConnected => rw [ho] at hh; simp at hh
            | ok n =>
              rw [ho] at hh
              simp only [decide_eq_true_eq] at hh
              exact ⟨n, rfl, hh⟩
            | pgError m => rw [ho] at hh; simp at hh
            | exc m => rw [ho] at hh; simp at hh
          cases ac
          · simp only [Bool.false_eq_true, if_false] at h
            exact ⟨fun hf => absurd hf (by simp), hstore [GatewayCall.ensureConnection] h⟩
          · simp only [if_true] at h
            cases hct : ora.createTable with
            | error e => rw [hct] at h; simp at h
            | ok tb =>
              rw [hct] at h
              cases tb
              · simp at h
              · cases hrs : ora.resetSequence with
                | error e => rw [hrs] at h; simp at h
                | ok b =>
                  rw [hrs] at h
                  exact ⟨fun _ => ⟨rfl, ⟨b, rfl⟩⟩,
                    hstore [.ensureConnection, .createTable, .resetSequence] h⟩

/-- Claim C9, witness: the theorem applied at the fully working oracle —
the empty-ticker call returns false with no gateway call, and a
successful call certifies the clean path. -/
theorem C9_witness :
    SignalInserter.insert_single_signal oraGood true (PyVal.date 1)
      (PyVal.str "" Option.none) (PyVal.str "RSI" Option.none)
      (PyVal.float (PyFloat.finite 1)) Option.none now0 = (false, []) ∧
    oraGood.ensureConnection = .ok true := by
  refine ⟨(C9_theorem oraGood true (PyVal.date 1) (PyVal.str "RSI" Option.none)
    (PyVal.float (PyFloat.finite 1)) Option.none now0).1 Option.none, ?_⟩
  exact ((C9_theorem oraGood true (PyVal.date 1) (PyVal.str "RSI" Option.none)
    (PyVal.float (PyFloat.finite 1)) Option.none now0).2
      (PyVal.str "AAPL" Option.none) (by decide)).1

/-!
Claim C8.
-/

/-- A nonempty all-string column infers the object dtype. -/
theorem colDtype_of_str (cells : List PyVal) (hne : cells ≠ [])
    (h : ∀ v ∈ cells, isPyStr v = true) : colDtype cells = .object := by
  cases cells with
  | nil => exact absurd rfl hne
  | cons c0 rest =>
    have h0 := h c0 (List.mem_cons_self c0 rest)
    cases c0 <;> simp [isPyStr] at h0
    unfold colDtype
    simp [isPyBool, isPyInt, isNumericOrNone, isNumericCell, isPyFloatV, isDatetimeOrNone,
      isDatetimeCell]

/-- A nonempty column of int/float cells infers a numeric dtype. -/
theorem colDtype_numeric (cells : List PyVal) (hne : cells ≠ [])
    (h : ∀ v ∈ cells, isNumericCell v = true) :
    isNumericDtype (colDtype cells) = true := by
  unfold colDtype
  by_cases h1 : cells.all isPyBool
  · simp [h1, isNumericDtype]
  · by_cases h2 : cells.all isPyInt
    · simp [h1, h2, isNumericDtype]
    · have h3 : cells.all isNumericOrNone = true := by
        rw [List.all_eq_true]
        intro v hv
        unfold isNumericOrNone
        rw [h v hv]
        rfl
      have h4 : cells.any isNumericCell = true := by
        cases cells with
        | nil => exact absurd rfl hne
        | cons c0 rest =>
          apply List.any_eq_true.2
          exact ⟨c0, List.mem_cons_self c0 rest, h c0 (List.mem_cons_self c0 rest)⟩
      simp only [eq_self_iff_true, Bool.not_eq_true] at h1 h2
      simp [h1, h2, h3, h4, isNumericDtype]

/-- A string cell is never missing. -/
theorem pdIsNA_str (s : String) (p : Option Json) : pdIsNA (PyVal.str s p) = false := rfl

/-- A date-instance cell is hashable. -/
theorem dateInstance_hashable (x : PyVal) (hx : isDateInstance x = true) :
    isUnhashable x = false := by
  cases x <;> first | rfl | simp [isDateInstance] at hx

/-- A string cell is hashable. -/
theorem str_hashable (x : PyVal) (hx : isPyStr x = true) : isUnhashable x = false := by
  cases x <;> first | rfl | simp [isPyStr] at hx

/-- A valid one-record frame whose ticker key cell is a dict, which the
duplicate check cannot hash. -/
def dfUnhash : DataFrame :=
  ⟨requiredColumns,
   [[("asof_date", PyVal.date 1), ("ticker", PyVal.dict Json.objNil),
     ("signal_name", PyVal.str "RSI" Option.none),
     ("value", PyVal.float (PyFloat.finite 1))]]⟩

/-- Claim C8, counterexample: validate_dataframe does raise — on a
non-empty frame with all key columns present whose ticker cell is a
dict, the duplicate check hashes the key columns and raises TypeError,
so no findings list is returned at all. -/
theorem C8_counterexample :
    DataFrameConverter.validate_dataframe dfUnhash = .error unhashableMsg := rfl

/-- Claim C8 (amended): validate_dataframe returns its findings without
raising except on one path — when the frame is non-empty, the three key
columns are all present, and some key-column cell is unhashable (a
dict), the duplicate check raises TypeError.  On every non-raising path
the claimed findings hold: an empty table yields the finding "DataFrame
is empty"; a table whose columns lack asof_date yields the
missing-columns finding naming it; a two-row table whose rows share the
natural key (with hashable key cells) yields the duplicate-count-1
finding; and a nonempty table with all required columns, date-instance
asof_date cells, string ticker and signal_name cells, numeric value
cells and no duplicate keys yields no findings at all. -/
theorem C8_amended_theorem :
    (∀ df : DataFrame, df.rows ≠ [] →
      (["asof_date", "ticker", "signal_name"].all (fun c => df.columns.contains c)) = true →
      df.keyUnhashable = true →
      DataFrameConverter.validate_dataframe df = .error unhashableMsg) ∧
    (∀ df : DataFrame, df.rows = [] →
      ∃ fs, DataFrameConverter.validate_dataframe df = .ok fs ∧ "DataFrame is empty" ∈ fs) ∧
    (∀ df : DataFrame, df.columns.contains "asof_date" = false →
      "asof_date" ∈ requiredColumns.filter (fun c => !(df.columns.contains c)) ∧
      ∃ fs, DataFrameConverter.validate_dataframe df = .ok fs ∧
        ("Missing required columns: " ++
          pyListRepr (requiredColumns.filter (fun c => !(df.columns.contains c)))) ∈ fs) ∧
    (∀ r1 r2 : Row, ∀ df : DataFrame, df.rows = [r1, r2] → rowKey r1 = rowKey r2 →
      (["asof_date", "ticker", "signal_name"].all (fun c => df.columns.contains c)) = true →
      df.keyUnhashable = false →
      ∃ fs, DataFrameConverter.validate_dataframe df = .ok fs ∧ dupMsg 1 ∈ fs) ∧
    (∀ df : DataFrame, df.rows ≠ [] →
      (∀ c ∈ requiredColumns, df.columns.contains c = true) →
      (∀ r ∈ df.rows, isDateInstance (rowGet r "asof_date") = true) →
      (∀ r ∈ df.rows, isPyStr (rowGet r "ticker") = true) →
      (∀ r ∈ df.rows, isPyStr (rowGet r "signal_name") = true) →
      (∀ r ∈ df.rows, isNumericCell (rowGet r "value") = true) →
      dupCount df.rows = 0 →
      DataFrameConverter.validate_dataframe df = .ok []) := by
  refine ⟨?_, ?_, ?_, ?_, ?_⟩
  · intro df hne hcols hun
    unfold DataFrameConverter.validate_dataframe
    have hrowsne : df.rows.isEmpty = false := by
      cases hr : df.rows
      · exact absurd hr hne
      · rfl
    rw [hrowsne]
    simp only [Bool.false_eq_true, if_false]
    rw [hcols, hun]
    simp
  · intro df h
    unfold DataFrameConverter.validate_dataframe
    rw [h]
    refine ⟨_, rfl, ?_⟩
    simp
  · intro df h
    have hmem : "asof_date" ∈ requiredColumns.filter (fun c => !(df.columns.contains c)) := by
      rw [List.mem_filter]
      exact ⟨by decide, by rw [h]; rfl⟩
    refine ⟨hmem, ?_⟩
    have hne : (requiredColumns.filter (fun c => !(df.columns.contains c))).isEmpty = false := by
      cases hc : requiredColumns.filter (fun c => !(df.columns.contains c))
      · rw [hc] at hmem; cases hmem
      · rfl
    unfold DataFrameConverter.validate_dataframe
    have he1 : (if (requiredColumns.filter (fun c => !(df.columns.contains c))).isEmpty
        then ([] : List String)
        else ["Missing required columns: " ++
          pyListRepr (requiredColumns.filter (fun c => !(df.columns.contains c)))]) =
        ["Missing required columns: " ++
          pyListRepr (requiredColumns.filter (fun c => !(df.columns.contains c)))] := by
      rw [hne]
      rfl
    simp only [he1]
    by_cases hrows : df.rows.isEmpty
    · rw [if_pos hrows]
      exact ⟨_, rfl, List.mem_append_left _ (List.mem_singleton.2 rfl)⟩
    · rw [if_neg hrows]
      have hguard : (["asof_date", "ticker", "signal_name"].all
          (fun c => df.columns.contains c)) = false := by
        rw [List.all_cons, h]
        rfl
      rw [hguard]
      simp only [Bool.false_eq_true, if_false]
      exact ⟨_, rfl,
        List.mem_append_left _ (List.mem_append_left _ (List.mem_singleton.2 rfl))⟩
  · intro r1 r2 df hrows hkey hcols hun
    unfold DataFrameConverter.validate_dataframe
    rw [hrows]
    have hdup : dupCount [r1, r2] = 1 := by
      unfold dupCount dupCountAux
      rw [hkey]
      simp [dupCountAux]
    simp only [List.isEmpty_cons, Bool.false_eq_true, if_false]
    rw [hcols, hun, hdup]
    refine ⟨_, rfl, ?_⟩
    simp
  · intro df hne hcols hdate htick hsig hval hdup
    unfold DataFrameConverter.validate_dataframe
    have hmiss : requiredColumns.filter (fun c => !(df.columns.contains c)) = [] := by
      rw [List.filter_eq_nil_iff]
      intro c hc
      rw [hcols c hc]
      simp
    rw [hmiss]
    have hrowsne : df.rows.isEmpty = false := by
      cases hr : df.rows
      · exact absurd hr hne
      · rfl
    rw [hrowsne]
    simp only [List.isEmpty_nil, if_true, Bool.false_eq_true, if_false]
    have hcellsne : ∀ c : String, colCells df c ≠ [] := by
      intro c hc
      unfold colCells at hc
      cases hr : df.rows
      · exact absurd hr hne
      · rw [hr] at hc; cases hc
    have hcf : ∀ c ∈ requiredColumns, DataFrameConverter.columnFindings df c = [] := by
      intro c hc
      unfold DataFrameConverter.columnFindings
      rw [hcols c hc]
      simp only [Bool.not_true, Bool.false_eq_true, if_false]
      fin_cases hc
      · have hall : (colCells df "asof_date").all isDateInstance = true := by
          rw [List.all_eq_true]
          intro v hv
          unfold colCells at hv
          obtain ⟨r, hr, hrv⟩ := List.mem_map.1 hv
          rw [← hrv]
          exact hdate r hr
        simp [hall]
      · have hobj : colDtype (colCells df "ticker") = .object := by
          apply colDtype_of_str _ (hcellsne "ticker")
          intro v hv
          obtain ⟨r, hr, hrv⟩ := List.mem_map.1 hv
          rw [← hrv]
          exact htick r hr
        have hna : (colCells df "ticker").any pdIsNA = false := by
          rw [List.any_eq_false]
          intro v hv
          obtain ⟨r, hr, hrv⟩ := List.mem_map.1 hv
          have := htick r hr
          rw [← hrv]
          cases hx : rowGet r "ticker" <;> rw [hx] at this <;> simp [isPyStr] at this
          simp [pdIsNA]
        simp [hobj, hna]
      · have hobj : colDtype (colCells df "signal_name") = .object := by
          apply colDtype_of_str _ (hcellsne "signal_name")
          intro v hv
          obtain ⟨r, hr, hrv⟩ := List.mem_map.1 hv
          rw [← hrv]
          exact hsig r hr
        have hna : (colCells df "signal_name").any pdIsNA = false := by
          rw [List.any_eq_false]
          intro v hv
          obtain ⟨r, hr, hrv⟩ := List.mem_map.1 hv
          have := hsig r hr
          rw [← hrv]
          cases hx : rowGet r "signal_name" <;> rw [hx] at this <;> simp [isPyStr] at this
          simp [pdIsNA]
        simp [hobj, hna]
      · have hnum : isNumericDtype (colDtype (colCells df "value")) = true := by
          apply colDtype_numeric _ (hcellsne "value")
          intro v hv
          obtain ⟨r, hr, hrv⟩ := List.mem_map.1 hv
          rw [← hrv]
          exact hval r hr
        simp [hnum]
    have he2 : (requiredColumns.map (DataFrameConverter.columnFindings df)).flatten = [] := by
      rw [List.flatten_eq_nil_iff]
      intro l hl
      obtain ⟨c, hc, hcl⟩ := List.mem_map.1 hl
      rw [← hcl]
      exact hcf c hc
    rw [he2]
    have hc3 : (["asof_date", "ticker", "signal_name"].all
        (fun c => df.columns.contains c)) = true := by
      rw [List.all_eq_true]
      intro c hc
      apply hcols
      fin_cases hc <;> decide
    have hun : df.keyUnhashable = false := by
      unfold DataFrame.keyUnhashable
      rw [List.any_eq_false]
      intro r hr
      simp [dateInstance_hashable _ (hdate r hr), str_hashable _ (htick r hr),
        str_hashable _ (hsig r hr)]
    rw [hc3, hun, hdup]
    simp

/-- A valid two-row frame sharing one natural key. -/
def dfDup : DataFrame := ⟨requiredColumns, [mkRow 0, mkRow 0]⟩

/-- A valid one-record frame whose signal_name key cell is a dict. -/
def dfUnhash2 : DataFrame :=
  ⟨requiredColumns,
   [[("asof_date", PyVal.date 2), ("ticker", PyVal.str "MSFT" Option.none),
     ("signal_name", PyVal.dict Json.objNil), ("value", PyVal.int 3)]]⟩

/-- Claim C8, witness: the amended theorem applied at a frame whose
signal_name cell is a dict (the raise path) and at the valid
five-record frame (the no-findings path). -/
theorem C8_amended_witness :
    DataFrameConverter.validate_dataframe dfUnhash2 = .error unhashableMsg ∧
    DataFrameConverter.validate_dataframe df5 = .ok [] := by
  refine ⟨C8_amended_theorem.1 dfUnhash2 (by decide) (by decide) (by decide), ?_⟩
  exact C8_amended_theorem.2.2.2.2 df5 (by decide) (by decide) (by decide) (by decide)
    (by decide) (by decide) (by decide)

/-!
Claim C5.
-/

/-- The logical map a metadata cell decodes to: the parse of a string
cell, the value of a dict cell, nothing for any other cell. -/
def metaDecode : PyVal → Option Json
  | .str _ p => p
  | .dict m => Option.some m
  | _ => Option.none

/-- A valid one-row frame whose metadata is the empty map. -/
def dfMeta : DataFrame :=
  ⟨requiredColumns ++ ["metadata"],
   [[("asof_date", PyVal.date 1), ("ticker", PyVal.str "AAPL" Option.none),
     ("signal_name", PyVal.str "RSI" Option.none),
     ("value", PyVal.float (PyFloat.finite 1)),
     ("metadata", PyVal.dict Json.objNil)]]⟩

/-- The conversion of dfMeta. -/
def sigsMeta : List SignalRaw :=
  [⟨PyVal.date 1, PyVal.str "AAPL" Option.none, PyVal.str "RSI" Option.none,
    PyVal.float (PyFloat.finite 1), Option.some Json.objNil, now0⟩]

/-- Claim C5, counterexample: a row whose metadata is the empty map
converts (ToRecords) to a record carrying the empty map, but
RecordsToTable writes the metadata cell back as None because the empty
dict is falsy in the dumps guard; the round-tripped cell decodes to no
map at all rather than to the original empty map. -/
theorem C5_counterexample :
    DataFrameConverter.dataframe_to_signals_raw dfMeta now0 = .ok sigsMeta ∧
    metaDecode (rowGet (dfMeta.rows.headD []) "metadata") = Option.some Json.objNil ∧
    rowGet ((DataFrameConverter.signals_raw_to_dataframe sigsMeta).rows.headD []) "metadata"
      = PyVal.none ∧
    metaDecode PyVal.none = Option.none :=
  ⟨rfl, rfl, rfl, rfl⟩

/-- A successful SignalRaw construction returns its field arguments
unchanged. -/
theorem make_ok_eq (a t s v : PyVal) (md : Option Json) (ca : Option PyVal) (now : PyVal)
    (sig : SignalRaw) (h : SignalRaw.make a t s v md ca now = .ok sig) :
    sig.asof_date = a ∧ sig.ticker = t ∧ sig.signal_name = s ∧ sig.value = v ∧
    sig.metadata = md := by
  unfold SignalRaw.make at h
  simp only [] at h
  by_cases c1 : (!pyTruthy t || !isPyStr t) = true
  · rw [if_pos c1] at h
    cases h
  · rw [if_neg c1] at h
    by_cases c2 : (!pyTruthy s || !isPyStr s) = true
    · rw [if_pos c2] at h
      cases h
    · rw [if_neg c2] at h
      by_cases c3 : (!isPyNumber v) = true
      · rw [if_pos c3] at h
        cases h
      · rw [if_neg c3] at h
        by_cases c4 : (!isDateInstance a) = true
        · rw [if_pos c4] at h
          cases h
        · rw [if_neg c4] at h
          cases h
          exact ⟨rfl, rfl, rfl, rfl, rfl⟩

/-- A successful row-list conversion relates each row to its record:
the four main fields are the row's cells and the metadata is the row's
parsed metadata. -/
theorem rowsToSignals_forall2 (cols : List String) (now : PyVal) :
    ∀ (rows : List Row) (signals : List SignalRaw),
      DataFrameConverter.rowsToSignals cols now rows = .ok signals →
      List.Forall₂ (fun (r : Row) (s : SignalRaw) =>
        s.asof_date = rowGet r "asof_date" ∧ s.ticker = rowGet r "ticker" ∧
        s.signal_name = rowGet r "signal_name" ∧ s.value = rowGet r "value" ∧
        s.metadata = DataFrameConverter.rowMetadata cols r) rows signals := by
  intro rows
  induction rows with
  | nil =>
    intro signals h
    simp only [DataFrameConverter.rowsToSignals] at h
    cases h
    exact List.Forall₂.nil
  | cons r rs ih =>
    intro signals h
    simp only [DataFrameConverter.rowsToSignals] at h
    cases hcr : DataFrameConverter.rowToSignal cols now r with
    | error e => rw [hcr] at h; cases h
    | ok s =>
      rw [hcr] at h
      cases hcs : DataFrameConverter.rowsToSignals cols now rs with
      | error e => rw [hcs] at h; cases h
      | ok ss =>
        rw [hcs] at h
        cases h
        have hf := make_ok_eq (rowGet r "asof_date") (rowGet r "ticker")
          (rowGet r "signal_name") (rowGet r "value")
          (DataFrameConverter.rowMetadata cols r) (DataFrameConverter.rowCreatedAt r) now s hcr
        exact List.Forall₂.cons
          ⟨hf.1, hf.2.1, hf.2.2.1, hf.2.2.2.1, hf.2.2.2.2⟩ (ih ss hcs)

/-- RecordsToTable writes one output row per record, in order, in both
the empty and nonempty branches. -/
theorem signals_to_rows_eq (signals : List SignalRaw) :
    (DataFrameConverter.signals_raw_to_dataframe signals).rows
      = signals.map DataFrameConverter.signalToRow := by
  unfold DataFrameConverter.signals_raw_to_dataframe
  by_cases h : signals.isEmpty
  · rw [if_pos h]
    rw [List.isEmpty_iff] at h
    rw [h]
    rfl
  · rw [if_neg h]

/-- Cell reads of an output row. -/
theorem signalToRow_get (s : SignalRaw) :
    rowGet (DataFrameConverter.signalToRow s) "asof_date" = s.asof_date ∧
    rowGet (DataFrameConverter.signalToRow s) "ticker" = s.ticker ∧
    rowGet (DataFrameConverter.signalToRow s) "signal_name" = s.signal_name ∧
    rowGet (DataFrameConverter.signalToRow s) "value" = s.value ∧
    rowGet (DataFrameConverter.signalToRow s) "metadata" = metadataCell s.metadata :=
  ⟨rfl, rfl, rfl, rfl, rfl⟩

/-- Decoding the written-back metadata cell: a truthy map comes back as
itself, an absent or falsy (empty) map comes back as nothing. -/
theorem metaDecode_metadataCell (md : Option Json) :
    metaDecode (metadataCell md) =
      (match md with
       | Option.some j => if jsonTruthy j then Option.some j else Option.none
       | Option.none => Option.none) := by
  cases md with
  | none => rfl
  | some j =>
    by_cases h : jsonTruthy j = true
    · simp [metadataCell, metaDecode, h]
    · simp [metadataCell, metaDecode, h]

/-- Claim C5 (amended): for every table accepted by ToRecords, applying
RecordsToTable to the converted records yields a table with one row per
input row whose asof_date, ticker, signal_name and value cells equal the
originals exactly, and whose metadata cell decodes back to the row's
parsed metadata map when that map is truthy (non-empty), and to nothing
when the metadata was absent, malformed, or the falsy empty map. -/
theorem C5_amended_theorem (df : DataFrame) (now : PyVal) (signals : List SignalRaw)
    (hconv : DataFrameConverter.dataframe_to_signals_raw df now = .ok signals) :
    List.Forall₂ (fun (r orow : Row) =>
      rowGet orow "asof_date" = rowGet r "asof_date" ∧
      rowGet orow "ticker" = rowGet r "ticker" ∧
      rowGet orow "signal_name" = rowGet r "signal_name" ∧
      rowGet orow "value" = rowGet r "value" ∧
      metaDecode (rowGet orow "metadata") =
        (match DataFrameConverter.rowMetadata df.columns r with
         | Option.some j => if jsonTruthy j then Option.some j else Option.none
         | Option.none => Option.none))
      df.rows (DataFrameConverter.signals_raw_to_dataframe signals).rows := by
  have hrows : DataFrameConverter.rowsToSignals df.columns now df.rows = .ok signals := by
    unfold DataFrameConverter.dataframe_to_signals_raw at hconv
    by_cases hm : (List.filter (fun c => !df.columns.contains c) requiredColumns).isEmpty
    · simp only [hm, Bool.not_true, Bool.false_eq_true, if_false] at hconv
      exact hconv
    · rw [Bool.not_eq_true] at hm
      simp only [hm, Bool.not_false, if_true] at hconv
      cases hconv
  rw [signals_to_rows_eq]
  have hf2 := rowsToSignals_forall2 df.columns now df.rows signals hrows
  rw [List.forall₂_map_right_iff]
  apply List.Forall₂.imp ?_ hf2
  intro r s hrel
  obtain ⟨h1, h2, h3, h4, h5⟩ := hrel
  have hg := signalToRow_get s
  refine ⟨?_, ?_, ?_, ?_, ?_⟩
  · rw [hg.1, h1]
  · rw [hg.2.1, h2]
  · rw [hg.2.2.1, h3]
  · rw [hg.2.2.2.1, h4]
  · rw [hg.2.2.2.2, metaDecode_metadataCell, h5]

/-- A non-empty metadata map. -/
def jm : Json := Json.objCons "src" (Json.jstr "yt") Json.objNil

/-- The input row whose metadata carries the non-empty map jm. -/
def rowMeta2 : Row :=
  [("asof_date", PyVal.date 1), ("ticker", PyVal.str "AAPL" Option.none),
   ("signal_name", PyVal.str "RSI" Option.none), ("value", PyVal.float (PyFloat.finite 1)),
   ("metadata", PyVal.dict jm)]

/-- A valid one-row frame whose metadata carries jm. -/
def dfMeta2 : DataFrame := ⟨requiredColumns ++ ["metadata"], [rowMeta2]⟩

/-- The conversion of dfMeta2. -/
def sigsMeta2 : List SignalRaw :=
  [⟨PyVal.date 1, PyVal.str "AAPL" Option.none, PyVal.str "RSI" Option.none,
    PyVal.float (PyFloat.finite 1), Option.some jm, now0⟩]

/-- The written-back row for dfMeta2's record. -/
def outRowMeta2 : Row :=
  DataFrameConverter.signalToRow
    ⟨PyVal.date 1, PyVal.str "AAPL" Option.none, PyVal.str "RSI" Option.none,
     PyVal.float (PyFloat.finite 1), Option.some jm, now0⟩

/-- Claim C5, witness: the amended theorem applied to the one-row frame
with a non-empty metadata map — the ticker round-trips exactly and the
written-back metadata cell decodes to the same map. -/
theorem C5_amended_witness :
    metaDecode (rowGet outRowMeta2 "metadata") = Option.some jm ∧
    rowGet outRowMeta2 "ticker" = rowGet (dfMeta2.rows.headD []) "ticker" := by
  have h := C5_amended_theorem dfMeta2 now0 sigsMeta2 rfl
  rw [show (DataFrameConverter.signals_raw_to_dataframe sigsMeta2).rows = [outRowMeta2]
    from rfl] at h
  rw [show dfMeta2.rows = [rowMeta2] from rfl] at h
  rcases h with _ | ⟨hrel, -⟩
  exact ⟨hrel.2.2.2.2, hrel.2.1⟩
